import Mathlib

/-!
# Verification of the oxo orchestration core against its specification

Shallow embedding of the Python sources:
* `src/ostorlab/serve_app/export_utils.py` (risk-rating aggregation),
* `src/ostorlab/agent/mixins/agent_open_telemetry_mixin.py` (tracing mixin),
* `src/ostorlab/serve_app/oxo.py` (GraphQL queries and mutations).

Database queries are modelled by explicit lists of records, raised Python
exceptions by `Except.error` carrying the exception message, and side effects
(bus publishes, installs, span lifecycle) by explicit event traces.
-/

/- ---------------------------------------------------------------------------
Risk ratings (`export_utils.py`)
--------------------------------------------------------------------------- -/

/-- The members of `common.RiskRatingEnum` used by `RISK_RATINGS_ORDER`. -/
inductive RiskRatingEnum
  | CRITICAL
  | HIGH
  | MEDIUM
  | LOW
  | POTENTIALLY
  | HARDENING
  | SECURE
  | IMPORTANT
  | INFO
deriving DecidableEq, Fintype

/-- `member.name` of each `RiskRatingEnum` member. -/
def riskRatingName : RiskRatingEnum → String
  | RiskRatingEnum.CRITICAL => "CRITICAL"
  | RiskRatingEnum.HIGH => "HIGH"
  | RiskRatingEnum.MEDIUM => "MEDIUM"
  | RiskRatingEnum.LOW => "LOW"
  | RiskRatingEnum.POTENTIALLY => "POTENTIALLY"
  | RiskRatingEnum.HARDENING => "HARDENING"
  | RiskRatingEnum.SECURE => "SECURE"
  | RiskRatingEnum.IMPORTANT => "IMPORTANT"
  | RiskRatingEnum.INFO => "INFO"

/-- The dictionary `RISK_RATINGS_ORDER` of `export_utils.py`, keyed by the
rating's `.name` string exactly as in the source. -/
def RISK_RATINGS_ORDER : List (String × Nat) :=
  [("CRITICAL", 8), ("HIGH", 7), ("MEDIUM", 6), ("LOW", 5), ("POTENTIALLY", 4),
   ("HARDENING", 3), ("SECURE", 2), ("IMPORTANT", 1), ("INFO", 0)]

/-- The dictionary access `RISK_RATINGS_ORDER[vuln.risk_rating.name]`.  Every
member name is a key of the dictionary, so the `KeyError` default never fires
(`rank_total` below). -/
def rank (r : RiskRatingEnum) : Nat :=
  (RISK_RATINGS_ORDER.lookup (riskRatingName r)).getD 0

/-- Python `str.lower()` on the ASCII rating names, written over the character
list so that it evaluates by kernel reduction. -/
def pyLower (s : String) : String :=
  String.mk (s.data.map Char.toLower)

/-- Python `max(iterable, key=f)`: the first element carrying the maximal key
(a later element replaces the running maximum only when strictly greater). -/
def pymax {α : Type} (key : α → Nat) : List α → Option α
  | [] => none
  | x :: xs => some (xs.foldl (fun best y => if key best < key y then y else best) x)

/-- `_compute_risk_rating` of `export_utils.py`.  `scanExists` models whether
the scan row is found; `ratings` is the list of `risk_rating` values of the
scan's vulnerability rows.  SQL `DISTINCT` returns the distinct ratings in an
unspecified order, modelled by `List.dedup`; the aggregation result does not
depend on the order (see the permutation theorem below). -/
def compute_risk_rating (scanExists : Bool) (ratings : List RiskRatingEnum) : String :=
  if scanExists = false then "unknown"
  else
    match pymax rank ratings.dedup with
    | none => "unknown"
    | some vulnHighestRisk => pyLower (riskRatingName vulnHighestRisk)

theorem rank_total : ∀ r : RiskRatingEnum,
    (RISK_RATINGS_ORDER.lookup (riskRatingName r)).isSome := by decide

theorem rank_injective : ∀ r s : RiskRatingEnum, rank r = rank s → r = s := by decide

/-- The running maximum computed by Python `max(iterable, key=f)` is a member
of the iterable and carries a maximal key. -/
theorem foldl_pymax_spec {α : Type} (key : α → Nat) (x : α) (xs : List α) :
    xs.foldl (fun best y => if key best < key y then y else best) x ∈ x :: xs ∧
      ∀ y ∈ x :: xs,
        key y ≤ key (xs.foldl (fun best y => if key best < key y then y else best) x) := by
  induction xs generalizing x with
  | nil => simp
  | cons z zs ih =>
    have hfold : (z :: zs).foldl (fun best y => if key best < key y then y else best) x
        = zs.foldl (fun best y => if key best < key y then y else best)
            (if key x < key z then z else x) := by
      simp [List.foldl_cons]
    obtain ⟨ihMem, ihLe⟩ := ih (if key x < key z then z else x)
    have hstepx : key x ≤ key (if key x < key z then z else x) := by
      by_cases h : key x < key z
      · simp [h]; exact Nat.le_of_lt h
      · simp [h]
    have hstepz : key z ≤ key (if key x < key z then z else x) := by
      by_cases h : key x < key z
      · simp [h]
      · simp [h]; exact Nat.le_of_not_lt h
    constructor
    · rw [hfold]
      rcases List.mem_cons.mp ihMem with hm | hm
      · rw [hm]
        by_cases h : key x < key z <;> simp [h]
      · simp [hm]
    · intro y hy
      rw [hfold]
      rcases List.mem_cons.mp hy with hy | hy
      · subst hy
        exact Nat.le_trans hstepx (ihLe _ (List.mem_cons_self _ _))
      · rcases List.mem_cons.mp hy with hy | hy
        · subst hy
          exact Nat.le_trans hstepz (ihLe _ (List.mem_cons_self _ _))
        · exact ihLe y (List.mem_cons_of_mem _ hy)

/-- For a scan with at least one reported vulnerability, `_compute_risk_rating`
returns the lowercased name of a reported rating of maximal rank. -/
theorem compute_risk_rating_spec (l : List RiskRatingEnum) (h : l ≠ []) :
    ∃ m, m ∈ l ∧ compute_risk_rating true l = pyLower (riskRatingName m) ∧
      ∀ y ∈ l, rank y ≤ rank m := by
  have hded : l.dedup ≠ [] := by
    obtain ⟨a, t, rfl⟩ := List.exists_cons_of_ne_nil h
    exact List.ne_nil_of_mem (List.mem_dedup.mpr (List.mem_cons_self a t))
  obtain ⟨d, ds, hds⟩ := List.exists_cons_of_ne_nil hded
  obtain ⟨hMem, hLe⟩ := foldl_pymax_spec rank d ds
  refine ⟨ds.foldl (fun best y => if rank best < rank y then y else best) d, ?_, ?_, ?_⟩
  · exact List.mem_dedup.mp (hds ▸ hMem)
  · simp [compute_risk_rating, hds, pymax]
  · intro y hy
    exact hLe y (hds ▸ List.mem_dedup.mpr hy)

/-- The aggregate is independent of the order in which vulnerability ratings
were reported. -/
theorem compute_risk_rating_perm (l1 l2 : List RiskRatingEnum) (hp : l1.Perm l2) :
    compute_risk_rating true l1 = compute_risk_rating true l2 := by
  rcases Decidable.em (l1 = []) with h1 | h1
  · subst h1
    have : l2 = [] := hp.nil_eq.symm
    subst this
    rfl
  · have h2 : l2 ≠ [] := fun h => h1 (List.Perm.eq_nil (h ▸ hp))
    obtain ⟨m1, hm1, he1, hle1⟩ := compute_risk_rating_spec l1 h1
    obtain ⟨m2, hm2, he2, hle2⟩ := compute_risk_rating_spec l2 h2
    have hr : rank m1 = rank m2 :=
      Nat.le_antisymm (hle2 m1 (hp.mem_iff.mp hm1)) (hle1 m2 (hp.mem_iff.mpr hm2))
    rw [he1, he2, rank_injective m1 m2 hr]

/-- C1: For every scan with at least one reported vulnerability, the computed
aggregate risk rating equals the maximum-rank rating among the reported
vulnerability ratings according to `RISK_RATINGS_ORDER` (CRITICAL rank 8 down
to INFO rank 0), never the lexicographically greatest name; in particular
`[LOW, CRITICAL, MEDIUM]` aggregates to `critical` (not the lexicographically
greatest `medium`), and any permutation of the same multiset of ratings yields
the same aggregate. -/
theorem C1_risk_aggregation_max_rank (l1 l2 : List RiskRatingEnum)
    (hne : l1 ≠ []) (hperm : l1.Perm l2) :
    (∃ m, m ∈ l1 ∧ compute_risk_rating true l1 = pyLower (riskRatingName m) ∧
        ∀ y ∈ l1, rank y ≤ rank m) ∧
    compute_risk_rating true
        [RiskRatingEnum.LOW, RiskRatingEnum.CRITICAL, RiskRatingEnum.MEDIUM] = "critical" ∧
    compute_risk_rating true l1 = compute_risk_rating true l2 :=
  ⟨compute_risk_rating_spec l1 hne, by decide, compute_risk_rating_perm l1 l2 hperm⟩

/-- Witness for C1 at the concrete rating list `[LOW, CRITICAL, MEDIUM]` and
its permutation `[CRITICAL, LOW, MEDIUM]`. -/
theorem C1_risk_aggregation_max_rank_witness :
    (∃ m, m ∈ [RiskRatingEnum.LOW, RiskRatingEnum.CRITICAL, RiskRatingEnum.MEDIUM] ∧
        compute_risk_rating true
            [RiskRatingEnum.LOW, RiskRatingEnum.CRITICAL, RiskRatingEnum.MEDIUM]
          = pyLower (riskRatingName m) ∧
        ∀ y ∈ [RiskRatingEnum.LOW, RiskRatingEnum.CRITICAL, RiskRatingEnum.MEDIUM],
          rank y ≤ rank m) ∧
    compute_risk_rating true
        [RiskRatingEnum.LOW, RiskRatingEnum.CRITICAL, RiskRatingEnum.MEDIUM] = "critical" ∧
    compute_risk_rating true
        [RiskRatingEnum.LOW, RiskRatingEnum.CRITICAL, RiskRatingEnum.MEDIUM]
      = compute_risk_rating true
          [RiskRatingEnum.CRITICAL, RiskRatingEnum.LOW, RiskRatingEnum.MEDIUM] :=
  C1_risk_aggregation_max_rank _ _ (by decide)
    (List.Perm.swap RiskRatingEnum.CRITICAL RiskRatingEnum.LOW [RiskRatingEnum.MEDIUM])

/-- C2: For every scan with zero reported vulnerabilities, the computed
aggregate risk rating is the explicit value `unknown`, which differs from
every defined rating name (in either case form) including the lowest defined
rating `INFO`. -/
theorem C2_zero_vulnerabilities_unknown :
    compute_risk_rating true [] = "unknown" ∧
    (∀ r : RiskRatingEnum,
      pyLower (riskRatingName r) ≠ "unknown" ∧ riskRatingName r ≠ "unknown") ∧
    pyLower (riskRatingName RiskRatingEnum.INFO) ≠ "unknown" := by
  decide

/- ---------------------------------------------------------------------------
OpenTelemetry mixin (`agent_open_telemetry_mixin.py`)
--------------------------------------------------------------------------- -/

/-- Characters allowed in a URL scheme by `urllib.parse` (`scheme_chars`). -/
def schemeChar (c : Char) : Bool :=
  c.isAlpha || c.isDigit || c == '+' || c == '-' || c == '.'

/-- Split a character list at its first `:`; `none` when no colon occurs. -/
def splitFirstColon : List Char → Option (List Char × List Char)
  | [] => none
  | c :: cs =>
    if c == ':' then some ([], cs)
    else
      match splitFirstColon cs with
      | none => none
      | some (pre, post) => some (c :: pre, post)

/-- The scheme handling of `urllib.parse.urlparse`: when a colon occurs after a
non-empty prefix of scheme characters, that prefix (lowercased) is the scheme
and the remainder of the url follows it; otherwise the scheme is empty. -/
def urlparseSchemeSplit (url : String) : String × String :=
  match splitFirstColon url.data with
  | none => ("", url)
  | some (pre, post) =>
    if !pre.isEmpty && pre.all schemeChar then
      (String.mk (pre.map Char.toLower), String.mk post)
    else ("", url)

/-- The netloc handling of `urllib.parse.urlparse`: a netloc exists only when
the remainder after the scheme starts with `//`, and extends to the next
`/`, `?` or `#`; otherwise the netloc is empty and the remainder is the path. -/
def urlparseNetlocSplit (rest : String) : String × String :=
  match rest.data with
  | '/' :: '/' :: tail =>
    (String.mk (tail.takeWhile fun c => c != '/' && c != '?' && c != '#'),
     String.mk (tail.dropWhile fun c => c != '/' && c != '?' && c != '#'))
  | _ => ("", rest)

/-- Python `str.split(sep)` over a character list: `''.split(':') == ['']`,
and every separator occurrence opens a new field. -/
def splitCharList (sep : Char) : List Char → List (List Char)
  | [] => [[]]
  | c :: cs =>
    match splitCharList sep cs with
    | [] => if c == sep then [[], []] else [[c]]
    | r :: rs => if c == sep then [] :: r :: rs else (c :: r) :: rs

/-- Python `str.split(sep)`. -/
def pySplit (s : String) (sep : Char) : List String :=
  (splitCharList sep s.data).map String.mk

/-- Python `int(s)` restricted to the non-negative decimal literals relevant to
port strings; anything else raises `ValueError`, modelled by `none`. -/
def pyIntParse (s : String) : Option Nat :=
  if !s.data.isEmpty && s.data.all (fun c => c.isDigit) then
    some (s.data.foldl (fun n c => 10 * n + (c.toNat - 48)) 0)
  else none

/-- The span exporters `get_trace_exporter` can build: `jaeger.JaegerExporter`
for the `jaeger` scheme and `sdk_export.ConsoleSpanExporter` writing to the
opened file for the `file` scheme. -/
inductive SpanExporter
  | jaegerExporter (agent_host_name : String) (agent_port : Nat)
  | consoleFileExporter (path : String)
deriving DecidableEq

/-- `TraceExporter.get_trace_exporter`, including `_get_jaeger_exporter` and
`_get_file_exporter`.  The jaeger branch evaluates `netloc.split(':')[0]` and
`int(netloc.split(':')[1])`, raising `IndexError` when the netloc has no colon
(in particular when the netloc is empty) and `ValueError` when the port is not
a number; the errors carry the Python exception rendering. -/
def TraceExporter.get_trace_exporter (tracing_collector_url : String) :
    Except String SpanExporter :=
  let sr := urlparseSchemeSplit tracing_collector_url
  let np := urlparseNetlocSplit sr.2
  if sr.1 = "jaeger" then
    match pySplit np.1 ':' with
    | hostname :: portStr :: _ =>
      match pyIntParse portStr with
      | some port => Except.ok (SpanExporter.jaegerExporter hostname port)
      | none =>
        Except.error ("ValueError: invalid literal for int with base 10: " ++ portStr)
    | _ => Except.error "IndexError: list index out of range"
  else if sr.1 = "file" then Except.ok (SpanExporter.consoleFileExporter np.2)
  else Except.error ("NotImplementedError: Invalid tracer type " ++ sr.1)

/-- The attributes of `OpenTelemetryMixin` set by `__init__`:
`_tracing_collector_url` after the None-or-empty normalization, and whether the
`_span_processor` attribute was assigned at all (it is only assigned inside the
`if self._tracing_collector_url is not None:` block). -/
structure MixinState where
  tracing_collector_url : Option String
  span_processor_present : Bool
deriving DecidableEq

/-- `OpenTelemetryMixin.__init__` from the agent settings' optional
`tracing_collector_url`.  With a non-`None`, non-empty URL, `__init__`
evaluates `self._exporter.get_trace_exporter()` while building the span
processor; an exception raised there (unknown scheme, colon-less jaeger
netloc, bad port) propagates out of `__init__`, so no agent object exists —
modelled by `Except.error`.  Only when that call returns an exporter is
`self._span_processor` assigned. -/
def OpenTelemetryMixin.init (tracing_collector_url : Option String) :
    Except String MixinState :=
  let url : Option String :=
    match tracing_collector_url with
    | some u => if u ≠ "" then some u else none
    | none => none
  match url with
  | some u =>
    match TraceExporter.get_trace_exporter u with
    | Except.ok _ => Except.ok (MixinState.mk (some u) true)
    | Except.error e => Except.error e
  | none => Except.ok (MixinState.mk none false)

/-- `OpenTelemetryMixin.force_flush_file_exporter`: reads
`self._span_processor`, so it raises `AttributeError` whenever `__init__` never
assigned that attribute. -/
def OpenTelemetryMixin.force_flush_file_exporter (s : MixinState) : Except String Unit :=
  if s.span_processor_present then Except.ok ()
  else Except.error "AttributeError: _span_processor"

/-- Observable events of one `process_message`/`emit` call: the span lifecycle
operations performed by `tracer.start_as_current_span` and the span object, and
the calls into the underlying agent (`super().process_message`/`super().emit`). -/
inductive Ev
  | spanStart (span : String)
  | handlerCall (selector : String)
  | publishCall (selector : String)
  | setAttr (key : String) (value : String)
  | recordException
  | spanEnd
deriving DecidableEq

/-- `OpenTelemetryMixin.process_message`.  `handlerOk` tells whether
`super().process_message` returns normally (`true`) or raises (`false`); the
returned boolean tells whether this call returns normally.  Inside the traced
branch the two `set_attribute` calls are written after the `super()` call, so
when the handler raises, the `with` block's exit records the exception on the
span and ends it (`start_as_current_span` defaults `record_exception=True`,
`end_on_exit=True`) and the exception propagates without any attribute having
been set. -/
def OpenTelemetryMixin.process_message (s : MixinState) (agentName selector : String)
    (handlerOk : Bool) : List Ev × Bool :=
  match s.tracing_collector_url with
  | some _ =>
    if handlerOk then
      ([Ev.spanStart "process_message", Ev.handlerCall selector,
        Ev.setAttr "agent.name" agentName, Ev.setAttr "message.selector" selector,
        Ev.spanEnd], true)
    else
      ([Ev.spanStart "process_message", Ev.handlerCall selector,
        Ev.recordException, Ev.spanEnd], false)
  | none => ([Ev.handlerCall selector], handlerOk)

/-- `OpenTelemetryMixin.emit`, symmetric to `process_message` with the
`emit_message` span around `super().emit`. -/
def OpenTelemetryMixin.emit (s : MixinState) (agentName selector : String)
    (publishOk : Bool) : List Ev × Bool :=
  match s.tracing_collector_url with
  | some _ =>
    if publishOk then
      ([Ev.spanStart "emit_message", Ev.publishCall selector,
        Ev.setAttr "agent.name" agentName, Ev.setAttr "message.selector" selector,
        Ev.spanEnd], true)
    else
      ([Ev.spanStart "emit_message", Ev.publishCall selector,
        Ev.recordException, Ev.spanEnd], false)
  | none => ([Ev.publishCall selector], publishOk)

/-- C3 counterexample: an agent successfully constructed with tracing
configured at the valid URL `file:/tmp/traces`, whose handler raises on a
concrete selector: `process_message` records the exception and closes the span
but never attaches the `agent.name` / `message.selector` attributes — the two
`set_attribute` calls come after the `super().process_message` call and are
skipped when it raises.  The claim's requirement that the error is recorded
"with its attributes attached" therefore fails at this input. -/
theorem C3_counterexample_attrs_not_attached_on_raise :
    OpenTelemetryMixin.init (some "file:/tmp/traces")
      = Except.ok (MixinState.mk (some "file:/tmp/traces") true) ∧
    (OpenTelemetryMixin.process_message
        (MixinState.mk (some "file:/tmp/traces") true)
        "agent_x" "v3.report.vulnerability" false).1
      = [Ev.spanStart "process_message", Ev.handlerCall "v3.report.vulnerability",
         Ev.recordException, Ev.spanEnd] ∧
    Ev.setAttr "agent.name" "agent_x" ∉
      (OpenTelemetryMixin.process_message
        (MixinState.mk (some "file:/tmp/traces") true)
        "agent_x" "v3.report.vulnerability" false).1 ∧
    Ev.setAttr "message.selector" "v3.report.vulnerability" ∉
      (OpenTelemetryMixin.process_message
        (MixinState.mk (some "file:/tmp/traces") true)
        "agent_x" "v3.report.vulnerability" false).1 := by
  refine ⟨rfl, rfl, ?_, ?_⟩ <;> decide

/-- C3 (amended): for every selector and payload, when tracing is configured,
`process_message` starts a span named `process_message`, executes the agent's
message handler within the span's context, and closes the span; on normal
handler return the attributes `agent.name` and `message.selector` are attached
before the span closes, while when the handler raises, the error is recorded on
the span before it is closed but the two attributes are not attached, and the
exception propagates to the caller. -/
theorem C3_process_message_span (u agentName selector : String) :
    OpenTelemetryMixin.process_message (MixinState.mk (some u) true)
        agentName selector true
      = ([Ev.spanStart "process_message", Ev.handlerCall selector,
          Ev.setAttr "agent.name" agentName, Ev.setAttr "message.selector" selector,
          Ev.spanEnd], true) ∧
    OpenTelemetryMixin.process_message (MixinState.mk (some u) true)
        agentName selector false
      = ([Ev.spanStart "process_message", Ev.handlerCall selector,
          Ev.recordException, Ev.spanEnd], false) :=
  ⟨rfl, rfl⟩

/-- C4: when no tracing collector URL is configured, `__init__` always
succeeds (no exporter is constructed) and yields the untraced state; for every
selector and payload, `process_message` then performs exactly one call into
the underlying handler and `emit` exactly one call into the underlying
publish, no span event occurs, and each call's outcome is exactly the
underlying operation's outcome (no error of the mixin's own). -/
theorem C4_no_tracing_no_overhead (agentName selector : String) (ok pub : Bool) :
    OpenTelemetryMixin.init none = Except.ok (MixinState.mk none false) ∧
    OpenTelemetryMixin.init (some "") = Except.ok (MixinState.mk none false) ∧
    OpenTelemetryMixin.process_message (MixinState.mk none false)
        agentName selector ok = ([Ev.handlerCall selector], ok) ∧
    OpenTelemetryMixin.emit (MixinState.mk none false)
        agentName selector pub = ([Ev.publishCall selector], pub) ∧
    (∀ sp : String, Ev.spanStart sp ∉
      (OpenTelemetryMixin.process_message (MixinState.mk none false)
        agentName selector ok).1) ∧
    (∀ sp : String, Ev.spanStart sp ∉
      (OpenTelemetryMixin.emit (MixinState.mk none false)
        agentName selector pub).1) := by
  refine ⟨rfl, rfl, rfl, rfl, ?_, ?_⟩ <;> intro sp <;>
    simp [OpenTelemetryMixin.process_message, OpenTelemetryMixin.emit]

/-- C5: the `file:<path>` form selects the file-backed span exporter and an
unrecognized kind fails fast with `NotImplementedError`, but the documented
`jaeger:<host>:<port>` form (the docstring's own example
`jaeger:jaeger-host:8631`) does not select the Jaeger exporter: `urlparse`
leaves the netloc empty for that form, so `netloc.split(':')[1]` raises
`IndexError`.  Only the `jaeger://<host>:<port>` form reaches the Jaeger
exporter. -/
theorem C5_get_trace_exporter_eval :
    TraceExporter.get_trace_exporter "jaeger:jaeger-host:8631"
      = Except.error "IndexError: list index out of range" ∧
    TraceExporter.get_trace_exporter "file:/tmp/spans.json"
      = Except.ok (SpanExporter.consoleFileExporter "/tmp/spans.json") ∧
    TraceExporter.get_trace_exporter "zipkin:host:9411"
      = Except.error "NotImplementedError: Invalid tracer type zipkin" ∧
    TraceExporter.get_trace_exporter "jaeger://jaeger-host:8631"
      = Except.ok (SpanExporter.jaegerExporter "jaeger-host" 8631) :=
  ⟨rfl, rfl, rfl, rfl⟩

/-- C10: for every agent that `__init__` actually constructs, if the tracing
collector URL was absent or empty then the mixin assigned no span processor
and `force_flush_file_exporter` raises `AttributeError`; if a non-empty URL
was configured (and exporter construction succeeded, otherwise `__init__`
itself raises and no agent exists), the span processor is present and the
flush call succeeds; and a successful flush is only possible when a non-empty
tracing collector URL was configured at construction time. -/
theorem C10_force_flush_requires_tracing (url : Option String) (s : MixinState)
    (hconstructed : OpenTelemetryMixin.init url = Except.ok s) :
    ((url = none ∨ url = some "") →
      s.span_processor_present = false ∧
      OpenTelemetryMixin.force_flush_file_exporter s
        = Except.error "AttributeError: _span_processor") ∧
    (∀ u : String, url = some u → u ≠ "" →
      s.span_processor_present = true ∧
      OpenTelemetryMixin.force_flush_file_exporter s = Except.ok ()) ∧
    (OpenTelemetryMixin.force_flush_file_exporter s = Except.ok () →
      ∃ u : String, url = some u ∧ u ≠ "") := by
  cases url with
  | none =>
    have hs : MixinState.mk none false = s := by
      simpa [OpenTelemetryMixin.init] using hconstructed
    subst hs
    refine ⟨fun _ => ⟨rfl, rfl⟩, ?_, ?_⟩
    · intro u hu
      cases hu
    · intro hflush
      simp [OpenTelemetryMixin.force_flush_file_exporter] at hflush
  | some u =>
    by_cases hu : u = ""
    · subst hu
      have hs : MixinState.mk none false = s := by
        simpa [OpenTelemetryMixin.init] using hconstructed
      subst hs
      refine ⟨fun _ => ⟨rfl, rfl⟩, ?_, ?_⟩
      · intro u' hu' hne
        cases hu'
        exact absurd rfl hne
      · intro hflush
        simp [OpenTelemetryMixin.force_flush_file_exporter] at hflush
    · cases hg : TraceExporter.get_trace_exporter u with
      | error e =>
        rw [show OpenTelemetryMixin.init (some u)
            = (match TraceExporter.get_trace_exporter u with
               | Except.ok _ => Except.ok (MixinState.mk (some u) true)
               | Except.error e => Except.error e) by
          simp [OpenTelemetryMixin.init, hu]] at hconstructed
        rw [hg] at hconstructed
        cases hconstructed
      | ok exp =>
        have hs : MixinState.mk (some u) true = s := by
          rw [show OpenTelemetryMixin.init (some u)
              = (match TraceExporter.get_trace_exporter u with
                 | Except.ok _ => Except.ok (MixinState.mk (some u) true)
                 | Except.error e => Except.error e) by
            simp [OpenTelemetryMixin.init, hu]] at hconstructed
          rw [hg] at hconstructed
          exact (Except.ok.inj hconstructed).symm ▸ rfl
        subst hs
        refine ⟨?_, ?_, ?_⟩
        · rintro (h | h)
          · cases h
          · cases h
            exact absurd rfl hu
        · intro u' hu' hne
          cases hu'
          exact ⟨rfl, rfl⟩
        · intro _
          exact ⟨u, rfl, hu⟩

/-- Witness for C10: the agent constructed with url `none` cannot flush
(`AttributeError`), and the agent constructed with the valid non-empty url
`file:/tmp/spans` flushes successfully. -/
theorem C10_force_flush_requires_tracing_witness :
    OpenTelemetryMixin.force_flush_file_exporter (MixinState.mk none false)
      = Except.error "AttributeError: _span_processor" ∧
    OpenTelemetryMixin.force_flush_file_exporter
        (MixinState.mk (some "file:/tmp/spans") true)
      = Except.ok () :=
  ⟨((C10_force_flush_requires_tracing none (MixinState.mk none false) rfl).1
      (Or.inl rfl)).2,
   ((C10_force_flush_requires_tracing (some "file:/tmp/spans")
        (MixinState.mk (some "file:/tmp/spans") true) rfl).2.1
      "file:/tmp/spans" rfl (by decide)).2⟩

/- ---------------------------------------------------------------------------
GraphQL queries and mutations (`oxo.py`)
--------------------------------------------------------------------------- -/

/-- A `models.Scan` row, reduced to the primary key the resolvers use. -/
structure Scan where
  id : Nat
deriving DecidableEq

/-- A `models.AgentGroup` row, reduced to the primary key the resolvers use. -/
structure AgentGroup where
  id : Nat
deriving DecidableEq

/-- `Query.resolve_scan`: `session.query(models.Scan).get(scan_id)` modelled by
the first row with the given primary key; a missing row raises
`graphql.GraphQLError("Scan not found.")`. -/
def Query.resolve_scan (session : List Scan) (scan_id : Nat) : Except String Scan :=
  match session.find? (fun s => s.id == scan_id) with
  | none => Except.error "Scan not found."
  | some s => Except.ok s

/-- `StopScanMutation.mutate`: the boolean records whether
`local_runtime.LocalRuntime().stop` was invoked. -/
def StopScanMutation.mutate (session : List Scan) (scan_id : Nat) :
    Except String Scan × Bool :=
  match session.find? (fun s => s.id == scan_id) with
  | none => (Except.error "Scan not found.", false)
  | some s => (Except.ok s, true)

/-- `DeleteAgentGroupMutation.mutate`: the second component is the agent-group
table after the mutation (unchanged when the id is unknown, since the error is
raised before any delete). -/
def DeleteAgentGroupMutation.mutate (session : List AgentGroup)
    (agent_group_id : Nat) : Except String Bool × List AgentGroup :=
  if (session.filter (fun g => g.id == agent_group_id)).length == 0 then
    (Except.error "AgentGroup not found.", session)
  else
    (Except.ok true, session.filter (fun g => g.id != agent_group_id))

/-- C6: for every operation invoked with an unknown scan id or unknown
agent-group id — stop scan, retrieve scan by id, delete agent group — the
operation raises the user-facing "not found" error immediately: no retry is
modelled (each performs a single lookup), the runtime stop is never invoked,
and the agent-group table is left unchanged. -/
theorem C6_unknown_id_not_found (scans : List Scan) (groups : List AgentGroup)
    (sid gid : Nat) (h1 : ∀ s ∈ scans, s.id ≠ sid) (h2 : ∀ g ∈ groups, g.id ≠ gid) :
    Query.resolve_scan scans sid = Except.error "Scan not found." ∧
    StopScanMutation.mutate scans sid = (Except.error "Scan not found.", false) ∧
    DeleteAgentGroupMutation.mutate groups gid
      = (Except.error "AgentGroup not found.", groups) := by
  have hfind : scans.find? (fun s => s.id == sid) = none := by
    rw [List.find?_eq_none]
    intro s hs
    simpa using h1 s hs
  have hfilter : groups.filter (fun g => g.id == gid) = [] := by
    rw [List.filter_eq_nil_iff]
    intro g hg
    simpa using h2 g hg
  refine ⟨?_, ?_, ?_⟩
  · simp [Query.resolve_scan, hfind]
  · simp [StopScanMutation.mutate, hfind]
  · simp [DeleteAgentGroupMutation.mutate, hfilter]

/-- Witness for C6 at a concrete one-row scan table and an empty agent-group
table. -/
theorem C6_unknown_id_not_found_witness :
    Query.resolve_scan [Scan.mk 1] 2 = Except.error "Scan not found." ∧
    StopScanMutation.mutate [Scan.mk 1] 2
      = (Except.error "Scan not found.", false) ∧
    DeleteAgentGroupMutation.mutate [] 7
      = (Except.error "AgentGroup not found.", []) :=
  C6_unknown_id_not_found [Scan.mk 1] [] 2 7 (by decide) (by decide)

/-- One agent entry of the `AgentGroupDefinition` handed to
`RunScanMutation._install_agents`. -/
structure AgentSpec where
  key : String
  version : Option String
deriving DecidableEq

/-- Outcome of one `install_agent.install(key, version)` call:
normal return, `agent_fetcher.AgentDetailsNotFound`, or `httpx.HTTPError`. -/
inductive InstallOutcome
  | ok
  | agentDetailsNotFound
  | httpError (msg : String)
deriving DecidableEq

/-- Visible actions of `RunScanMutation._install_agents`:
`runtime_instance.install()`, each `install_agent.install` call, and each
`graphql.GraphQLError(...)` object that the `except AgentDetailsNotFound`
branch constructs without raising or collecting it. -/
inductive InstallEvent
  | runtimeInstall
  | installCall (key : String)
  | errorConstructed (msg : String)
deriving DecidableEq

/-- The per-agent loop of `_install_agents`: an `AgentDetailsNotFound` from one
agent is caught, a `GraphQLError` naming the agent is constructed and then
discarded (the source neither raises nor stores it), and the loop continues
with the next agent; an `httpx.HTTPError` escapes the inner `try` and is
re-raised by the outer handler as a `GraphQLError`. -/
def installAgentsLoop (store : String → InstallOutcome) :
    List AgentSpec → List InstallEvent × Except String Unit
  | [] => ([], Except.ok ())
  | a :: rest =>
    match store a.key with
    | InstallOutcome.ok =>
      let r := installAgentsLoop store rest
      (InstallEvent.installCall a.key :: r.1, r.2)
    | InstallOutcome.agentDetailsNotFound =>
      let r := installAgentsLoop store rest
      (InstallEvent.installCall a.key
        :: InstallEvent.errorConstructed ("Agent " ++ a.key ++ " not found on the store.")
        :: r.1, r.2)
    | InstallOutcome.httpError e =>
      ([InstallEvent.installCall a.key],
       Except.error ("Could not install the agents: " ++ e))

/-- `RunScanMutation._install_agents`: `runtimeInstallError` is the
`httpx.HTTPError` raised by `runtime_instance.install()` when that call fails;
the result carries the event trace and what the caller observes (a raised
`GraphQLError` only for `httpx.HTTPError`). -/
def RunScanMutation.install_agents (runtimeInstallError : Option String)
    (agents : List AgentSpec) (store : String → InstallOutcome) :
    List InstallEvent × Except String Unit :=
  match runtimeInstallError with
  | some e => ([], Except.error ("Could not install the agents: " ++ e))
  | none =>
    let r := installAgentsLoop store agents
    (InstallEvent.runtimeInstall :: r.1, r.2)

/-- Store outcome used by the C7 evaluation: `agent/org/a` is missing from the
store, every other agent installs fine. -/
def c7Store : String → InstallOutcome := fun key =>
  if key == "agent/org/a" then InstallOutcome.agentDetailsNotFound else InstallOutcome.ok

/-- C7: evaluation of `_install_agents` at the failing input — a reachable
backend and an agent group `[agent/org/a, agent/org/b]` where `agent/org/a` is
not found on the store.  The sibling `agent/org/b` is still installed (the
claim's non-abort half holds), but the call returns normally with no error and
no failed-key list: the `GraphQLError` naming `agent/org/a` is constructed and
silently discarded, so nothing is surfaced to the caller, contradicting the
claim's surfacing half.  The final conjunct shows an unreachable backend does
fail the whole install. -/
theorem C7_install_failure_not_surfaced :
    RunScanMutation.install_agents none
        [AgentSpec.mk "agent/org/a" none, AgentSpec.mk "agent/org/b" none] c7Store
      = ([InstallEvent.runtimeInstall,
          InstallEvent.installCall "agent/org/a",
          InstallEvent.errorConstructed "Agent agent/org/a not found on the store.",
          InstallEvent.installCall "agent/org/b"],
         Except.ok ()) ∧
    RunScanMutation.install_agents (some "backend unreachable")
        [AgentSpec.mk "agent/org/a" none, AgentSpec.mk "agent/org/b" none] c7Store
      = ([], Except.error "Could not install the agents: backend unreachable") :=
  ⟨rfl, rfl⟩

/-- `OxoAndroidStoreAssetInputType`. -/
structure AndroidStoreInput where
  package_name : String
  application_name : String
deriving DecidableEq

/-- `OxoAndroidFileAssetInputType`: the uploaded file content and the declared
package name. -/
structure AndroidFileInput where
  package_name : String
  file : String
deriving DecidableEq

/-- `OxoIOSStoreAssetInputType`. -/
structure IosStoreInput where
  bundle_id : String
  application_name : String
deriving DecidableEq

/-- `OxoIOSFileAssetInputType`. -/
structure IosFileInput where
  bundle_id : String
  file : String
deriving DecidableEq

/-- One url entry of the `link` input. -/
structure LinkInput where
  url : String
  method : String
deriving DecidableEq

/-- One entry of the `ip` input. -/
structure IPInput where
  host : String
  mask : Option String
deriving DecidableEq

/-- `OxoAssetInputType`: the six optional target fields examined by
`CreateAssetsMutation._validate` and `CreateAssetsMutation.mutate`. -/
structure OxoAssetInputType where
  android_store : Option AndroidStoreInput
  android_file : Option AndroidFileInput
  ios_store : Option IosStoreInput
  ios_file : Option IosFileInput
  link : Option (List LinkInput)
  ip : Option (List IPInput)
deriving DecidableEq

/-- The rows persisted by the `models.*.create` calls of
`CreateAssetsMutation.mutate`. -/
inductive CreatedAsset
  | androidStore (package_name : String) (application_name : String)
  | androidFile (package_name : String) (path : String)
  | iosStore (bundle_id : String) (application_name : String)
  | iosFile (bundle_id : String) (path : String)
  | url (links : List LinkInput)
  | network (networks : List String)
deriving DecidableEq

/-- Stands in for the Python f-string interpolation of the asset input object
into the two validation error messages (`f"Asset {asset} ..."`). -/
def assetRepr (a : OxoAssetInputType) : String :=
  let fields :=
    (match a.android_store with
     | some s => ["android_store " ++ s.package_name]
     | none => []) ++
    (match a.android_file with
     | some f => ["android_file " ++ f.package_name]
     | none => []) ++
    (match a.ios_store with
     | some s => ["ios_store " ++ s.bundle_id]
     | none => []) ++
    (match a.ios_file with
     | some f => ["ios_file " ++ f.bundle_id]
     | none => []) ++
    (match a.link with
     | some _ => ["link"]
     | none => []) ++
    (match a.ip with
     | some _ => ["ip"]
     | none => [])
  "OxoAssetInputType(" ++ String.intercalate ", " fields ++ ")"

/-- The local `assets` list built by `CreateAssetsMutation._validate`: one
entry per non-`None` target field. -/
def declaredTargets (asset : OxoAssetInputType) : List Unit :=
  (match asset.android_store with | some _ => [()] | none => []) ++
  (match asset.android_file with | some _ => [()] | none => []) ++
  (match asset.ios_store with | some _ => [()] | none => []) ++
  (match asset.ios_file with | some _ => [()] | none => []) ++
  (match asset.link with | some _ => [()] | none => []) ++
  (match asset.ip with | some _ => [()] | none => [])

/-- `CreateAssetsMutation._validate`: an input declaring zero targets or two or
more targets yields an error message; exactly one target is valid. -/
def CreateAssetsMutation.validate (asset : OxoAssetInputType) : Option String :=
  if (declaredTargets asset).length == 0 then
    some ("Asset " ++ assetRepr asset ++ " input is missing target.")
  else if (declaredTargets asset).length ≥ 2 then
    some ("Single target input must be defined for asset " ++ assetRepr asset ++ ".")
  else none

/-- Stands in for `str(uuid.uuid4())` in the upload file names; the mutation is
modelled with a deterministic fresh-name counter threaded through the loop. -/
def uuidName (c : Nat) : String := toString c

/-- The chain of `if asset.<field> is not None:` creation blocks run for one
asset input by `CreateAssetsMutation.mutate`; returns the rows created for
this input and the advanced fresh-name counter (android and ios file uploads
each consume one fresh name for their stored path). -/
def createAssetRows (c : Nat) (asset : OxoAssetInputType) : List CreatedAsset × Nat :=
  let s1 := match asset.android_store with
    | some s => ([CreatedAsset.androidStore s.package_name s.application_name], c)
    | none => ([], c)
  let s2 := match asset.android_file with
    | some f => (s1.1 ++ [CreatedAsset.androidFile f.package_name ("android_" ++ uuidName s1.2)],
                 s1.2 + 1)
    | none => s1
  let s3 := match asset.ios_store with
    | some s => (s2.1 ++ [CreatedAsset.iosStore s.bundle_id s.application_name], s2.2)
    | none => s2
  let s4 := match asset.ios_file with
    | some f => (s3.1 ++ [CreatedAsset.iosFile f.bundle_id ("ios_" ++ uuidName s3.2)], s3.2 + 1)
    | none => s3
  let s5 := match asset.link with
    | some links => (s4.1 ++ [CreatedAsset.url links], s4.2)
    | none => s4
  match asset.ip with
  | some ips =>
    (s5.1 ++ [CreatedAsset.network (ips.map fun ipInput =>
        match ipInput.mask with
        | some m => ipInput.host ++ "/" ++ m
        | none => ipInput.host)], s5.2)
  | none => s5

/-- The `for asset in assets:` loop of `CreateAssetsMutation.mutate`: an
invalid input appends its message to `errors` and is skipped (`continue`); a
valid input has its rows created and persisted immediately.  `created` is the
local `created_assets` list, `db` the persisted asset table. -/
def createAssetsLoop (c : Nat) (errors : List String)
    (created db : List CreatedAsset) :
    List OxoAssetInputType → List String × List CreatedAsset × List CreatedAsset
  | [] => (errors, created, db)
  | a :: rest =>
    match CreateAssetsMutation.validate a with
    | some msg => createAssetsLoop c (errors ++ [msg]) created db rest
    | none =>
      createAssetsLoop (createAssetRows c a).2 errors
        (created ++ (createAssetRows c a).1) (db ++ (createAssetRows c a).1) rest

/-- `CreateAssetsMutation.mutate`: after the loop, a non-empty error list
raises `GraphQLError("Invalid assets: ...")` joining all messages — but the
rows persisted for the valid inputs stay in the table (second component). -/
def CreateAssetsMutation.mutate (db : List CreatedAsset)
    (assets : List OxoAssetInputType) :
    Except String (List CreatedAsset) × List CreatedAsset :=
  let r := createAssetsLoop 0 [] [] db assets
  if r.1.length > 0 then
    (Except.error ("Invalid assets: " ++ String.intercalate "\n" r.1), r.2.2)
  else (Except.ok r.2.1, r.2.2)

/-- The rows `CreateAssetsMutation.mutate` persists: those of the valid inputs,
in input order, with the fresh-name counter threaded over the valid inputs
only. -/
def persistedValidRows (c : Nat) : List OxoAssetInputType → List CreatedAsset
  | [] => []
  | a :: rest =>
    match CreateAssetsMutation.validate a with
    | some _ => persistedValidRows c rest
    | none => (createAssetRows c a).1 ++ persistedValidRows (createAssetRows c a).2 rest

/-- Unfolding of the `CreateAssetsMutation.mutate` loop: errors collect the
validation messages in input order, and both the local list and the table
collect the valid inputs' rows. -/
theorem createAssetsLoop_spec (assets : List OxoAssetInputType) (c : Nat)
    (errors : List String) (created db : List CreatedAsset) :
    createAssetsLoop c errors created db assets
      = (errors ++ assets.filterMap CreateAssetsMutation.validate,
         created ++ persistedValidRows c assets,
         db ++ persistedValidRows c assets) := by
  induction assets generalizing c errors created db with
  | nil => simp [createAssetsLoop, persistedValidRows]
  | cons a rest ih =>
    cases hv : CreateAssetsMutation.validate a with
    | some msg =>
      simp [createAssetsLoop, hv, ih, persistedValidRows, List.filterMap_cons]
    | none =>
      simp [createAssetsLoop, hv, ih, persistedValidRows, List.filterMap_cons]

/-- C8: for every list of asset inputs in which at least one input is invalid
(zero or two-plus declared targets), `CreateAssetsMutation.mutate` raises a
single error naming every invalid input, yet every valid input in the same
list has already had its asset rows created and persisted before the error is
raised — the operation changes state even though the caller receives an
error. -/
theorem C8_create_assets_not_atomic (db : List CreatedAsset)
    (assets : List OxoAssetInputType)
    (h : ∃ a ∈ assets, (CreateAssetsMutation.validate a).isSome) :
    (CreateAssetsMutation.mutate db assets).1
      = Except.error ("Invalid assets: " ++ String.intercalate "\n"
          (assets.filterMap CreateAssetsMutation.validate)) ∧
    (CreateAssetsMutation.mutate db assets).2
      = db ++ persistedValidRows 0 assets := by
  have hne : assets.filterMap CreateAssetsMutation.validate ≠ [] := by
    obtain ⟨a, ha, hs⟩ := h
    intro hnil
    rw [List.filterMap_eq_nil_iff] at hnil
    rw [hnil a ha] at hs
    simp at hs
  unfold CreateAssetsMutation.mutate
  rw [createAssetsLoop_spec]
  simp only [List.nil_append]
  rw [if_pos (List.length_pos.mpr hne)]
  exact ⟨rfl, rfl⟩

/-- An asset input declaring no target at all. -/
def c8InvalidInput : OxoAssetInputType :=
  OxoAssetInputType.mk none none none none none none

/-- An asset input declaring exactly one target (an iOS store entry). -/
def c8ValidInput : OxoAssetInputType :=
  OxoAssetInputType.mk none none (some (IosStoreInput.mk "a.b.c" "fake_app"))
    none none none

/-- Witness for C8: one invalid and one valid input — the mutation errors with
the message naming the invalid input, yet the valid input's row is persisted. -/
theorem C8_create_assets_not_atomic_witness :
    (CreateAssetsMutation.mutate [] [c8InvalidInput, c8ValidInput]).1
      = Except.error "Invalid assets: Asset OxoAssetInputType() input is missing target." ∧
    (CreateAssetsMutation.mutate [] [c8InvalidInput, c8ValidInput]).2
      = [CreatedAsset.iosStore "a.b.c" "fake_app"] := by
  have h := C8_create_assets_not_atomic [] [c8InvalidInput, c8ValidInput]
    ⟨c8InvalidInput, by decide, by decide⟩
  exact ⟨h.1.trans rfl, h.2.trans rfl⟩

/-- The collaborator outcomes `RunScanMutation.mutate` observes:
whether `_prepare_agent_group` finds the agent group, whether
`_prepare_assets` finds the assets, the result of
`runtime_instance.can_run` (a boolean, or a raised `OstorlabError`),
the behaviour of the install step, and the result of
`runtime_instance.scan` (the created scan, or a raised `OstorlabError`). -/
structure RunScanEnv where
  agentGroupFound : Bool
  assetsFound : Bool
  canRun : Except String Bool
  runtimeInstallError : Option String
  agents : List AgentSpec
  store : String → InstallOutcome
  scanResult : Except String Scan

/-- State-changing steps `RunScanMutation.mutate` may perform after the
feasibility check: the agent installs, the `runtime_instance.scan` call
creating the scan record, and the commit linking the assets to it. -/
inductive RunEffect
  | installAgents
  | createScan (id : Nat)
  | linkAssets
deriving DecidableEq

/-- `RunScanMutation.mutate`.  The body only acts inside
`if can_run_scan is True:`; when `can_run` returns any other value the
function falls through and returns Python `None` (`Except.ok none`) with no
effect.  Errors are the raised `GraphQLError`s of the source. -/
def RunScanMutation.mutate (env : RunScanEnv) :
    List RunEffect × Except String (Option Scan) :=
  if env.agentGroupFound = false then ([], Except.error "Agent group not found.")
  else if env.assetsFound = false then ([], Except.error "Assets not found.")
  else
    match env.canRun with
    | Except.error e =>
      ([], Except.error ("Runtime encountered an error to run scan: " ++ e))
    | Except.ok can_run_scan =>
      if can_run_scan = true then
        match (RunScanMutation.install_agents env.runtimeInstallError
            env.agents env.store).2 with
        | Except.error e => ([RunEffect.installAgents], Except.error e)
        | Except.ok _ =>
          match env.scanResult with
          | Except.error e =>
            ([RunEffect.installAgents],
             Except.error ("Runtime encountered an error to run scan: " ++ e))
          | Except.ok s =>
            ([RunEffect.installAgents, RunEffect.createScan s.id, RunEffect.linkAssets],
             Except.ok (some s))
      else ([], Except.ok none)

/-- C9: for every run-scan request whose feasibility check completes without
raising but returns a value other than `True`, `RunScanMutation.mutate`
returns no result at all (Python `None`): no scan record is created, no agents
are installed, no asset is linked, and no error is raised to the caller —
whatever the install step and the scan step would have done. -/
theorem C9_can_run_false_returns_none (runtimeInstallError : Option String)
    (agents : List AgentSpec) (store : String → InstallOutcome)
    (scanResult : Except String Scan) :
    RunScanMutation.mutate
        (RunScanEnv.mk true true (Except.ok false) runtimeInstallError
          agents store scanResult)
      = ([], Except.ok none) :=
  rfl
